import Mathlib

/-! Verification development for the Telegram subscription-gate bot
(`src/main.py`).  The bot gates a small set of search commands behind
membership in a configured channel.  We give a shallow embedding of the
pure decision logic of the handlers: configuration, the subscription
oracle (`is_subscribed`), the per-(chat,user) conversation state store
(`user_search_states`), the menu renderer (`show_subscription_required`,
`show_subscribed_message`), the callback-button dispatcher
(`button_handler`), the free-text dispatcher (`handle_text_message`) and
the three search handlers.  External collaborator calls
(`get_chat_member`, `get_chat`) are modelled by passing their outcome in
as an `Except` value; the outbound Telegram calls are modelled as a list
of `Action`s produced by each handler. -/

namespace Main

/-- Role of a user in a chat, as reported by the membership collaborator
(`telegram.constants.ChatMemberStatus`). -/
inductive ChatMemberStatus
  | owner
  | administrator
  | member
  | restricted
  | left
  | kicked
deriving DecidableEq, Repr

/-- Environment configuration read at startup (`CHANNEL_ID`, `CHANNEL_URL`,
`WARNING_IMAGE_URL`).  `none` models a falsy value (unset or empty), matching
Python truthiness tests such as `if CHANNEL_URL:`.  `BOT_TOKEN` is not
modelled: it only gates process startup. -/
structure Config where
  channel_id : Option String
  channel_url : Option String
  warning_image_url : Option String
deriving DecidableEq, Repr

/-- Pending-input session states stored in `user_search_states`. -/
inductive SearchState
  | waiting_user_search
  | waiting_channel_search
  | waiting_group_search
deriving DecidableEq, Repr

/-- Key of the session store: `(chat_id, user_id)`.  In `button_handler` the
chat id is `query.message.chat.id if query.message else None`, so the first
component is optional. -/
abbrev StateKey := Option Int × Int

/-- The `user_search_states` dict, as an association list. -/
abbrev SearchStates := List (StateKey × SearchState)

/-- Dict lookup: `user_search_states.get((chat_id, user_id))` /
`(chat_id, user_id) in user_search_states`. -/
def states_get (m : SearchStates) (k : StateKey) : Option SearchState :=
  m.lookup k

/-- Dict assignment: `user_search_states[(chat_id, user_id)] = state`. -/
def states_set (m : SearchStates) (k : StateKey) (v : SearchState) : SearchStates :=
  (k, v) :: m.filter (fun p => p.1 != k)

/-- Dict removal: `user_search_states.pop((chat_id, user_id), None)`. -/
def states_pop (m : SearchStates) (k : StateKey) : SearchStates :=
  m.filter (fun p => p.1 != k)

/-- An inline keyboard button: either an outbound-URL button or a
callback button carrying a fixed token. -/
inductive Button
  | urlButton (label : String) (url : String)
  | callbackButton (label : String) (data : String)
deriving DecidableEq, Repr

/-- The `parse_mode` argument of outbound messages. -/
inductive ParseMode
  | markdown
  | markdownV2
deriving DecidableEq, Repr

/-- A rendered outbound payload: message text, inline keyboard (list of
rows), optional photo (for `reply_photo`) and parse mode. -/
structure Payload where
  text : String
  keyboard : List (List Button)
  photo : Option String
  parse_mode : Option ParseMode
deriving DecidableEq, Repr

/-- Outbound effects a handler performs, in order. -/
inductive Action
  | reply (p : Payload)
  | editMessage (p : Payload)
  | deleteMessage
  | sendMessage (p : Payload)
  | answerCallback (text : Option String) (show_alert : Bool)
deriving DecidableEq, Repr

/-- `TelegramBot.is_subscribed` (main.py lines 52-70).  The outcome of the
`get_chat_member` collaborator call is passed in: `.ok status` when the call
returned a member object, `.error ()` when it raised.  With no `CHANNEL_ID`
configured the check is permissive; a raised lookup is fail-closed. -/
def is_subscribed (cfg : Config) (member_result : Except Unit ChatMemberStatus) : Bool :=
  match cfg.channel_id with
  | none => true
  | some _ =>
    match member_result with
    | .ok status =>
      [ChatMemberStatus.member, ChatMemberStatus.administrator,
        ChatMemberStatus.owner].contains status
    | .error _ => false

/-- Python `s.startswith(pre)`: code-point prefix test. -/
def py_startswith (s pre : String) : Bool :=
  pre.data.isPrefixOf s.data

/-- Python slice `s[n:]`. -/
def py_drop (n : Nat) (s : String) : String :=
  String.mk (s.data.drop n)

/-- Python slice `s[:n]`. -/
def py_take (n : Nat) (s : String) : String :=
  String.mk (s.data.take n)

/-- `telegram.helpers.escape_markdown(..., version=2)`: prefix each
MarkdownV2 special character with a backslash.  The special set is
`_*[]()~`>#+-=|{}.!` (brace and backtick written by code point). -/
def mdv2_special : List Char :=
  ['_', '*', '[', ']', '(', ')', '~', Char.ofNat 96, '>', '#', '+', '-',
    '=', '|', Char.ofNat 123, Char.ofNat 125, '.', '!']

/-- Escape a string for MarkdownV2 (`escape_markdown(s, version=2)`). -/
def escape_markdown (s : String) : String :=
  String.mk (List.flatten (s.data.map
    (fun c => if c ∈ mdv2_special then ['\\', c] else [c])))

/-- Main-menu text shown to subscribed users (lines 151, 185, 245). -/
def main_menu_text : String :=
  "✅ Obuna bo'lingan! Siz botdan foydalanishingiz mumkin.\n\n🔍 Qidirish turini tanlang:"

/-- Main-menu keyboard: one search-category button per row. -/
def main_menu_keyboard : List (List Button) :=
  [[Button.callbackButton "👤 Foydalanuvchi qidirish" "search_user"],
   [Button.callbackButton "📺 Kanal qidirish" "search_channel"],
   [Button.callbackButton "👥 Guruh qidirish" "search_group"]]

/-- The subscribed main-menu payload (no parse mode, no photo). -/
def main_menu_payload : Payload :=
  Payload.mk main_menu_text main_menu_keyboard none none

/-- `TelegramBot.show_subscribed_message` renders exactly the main menu. -/
def show_subscribed_message : Payload :=
  main_menu_payload

/-- Base warning text of the unsubscribed prompt (line 103). -/
def subscription_required_base_text : String :=
  "⚠️ Botdan foydalanish uchun quyidagi kanalga obuna bo'ling."

/-- Text appended when the channel reference is a private numeric id
(line 121); it embeds the raw channel identifier. -/
def kanal_id_note (c : String) : String :=
  "\n\n🆔 Kanal ID: `" ++ c ++
    "`\n📝 Admin bilan bog'laning yoki kanalning public username'ini so'rang."

/-- The subscribe-button URL chosen by `show_subscription_required`
(lines 105-117): priority 1 the configured `CHANNEL_URL` (used directly if it
is an http(s) URL, converted to `https://t.me/...` if it is an `@`-handle,
otherwise no button); priority 2, only when `CHANNEL_URL` is falsy, a URL
derived from an `@`-handle `CHANNEL_ID`. -/
def subscribe_url (cfg : Config) : Option String :=
  match cfg.channel_url with
  | some u =>
    if py_startswith u "https://" || py_startswith u "http://" then some u
    else if py_startswith u "@" then some ("https://t.me/" ++ py_drop 1 u)
    else none
  | none =>
    match cfg.channel_id with
    | some c => if py_startswith c "@" then some ("https://t.me/" ++ py_drop 1 c) else none
    | none => none

/-- The unsubscribed prompt's text (lines 103, 119-121): the channel id is
embedded only in the third priority branch — `CHANNEL_URL` falsy and
`CHANNEL_ID` truthy but not an `@`-handle. -/
def subscription_required_text (cfg : Config) : String :=
  match cfg.channel_url, cfg.channel_id with
  | none, some c =>
    if py_startswith c "@" then subscription_required_base_text
    else subscription_required_base_text ++ kanal_id_note c
  | _, _ => subscription_required_base_text

/-- The fixed recheck button of the unsubscribed prompt (line 128). -/
def recheck_button : Button :=
  Button.callbackButton "🔄 Tekshirish" "check_subscription"

/-- The documented placeholder value of `WARNING_IMAGE_URL` treated as
unset (line 132). -/
def warning_placeholder : String :=
  "https://example.com/warning.png"

/-- `TelegramBot.show_subscription_required` (lines 98-144) as a pure
renderer.  The photo field mirrors the `reply_photo` branch; the
send-failure fallback (lines 141-144) re-sends the same text and buttons,
so the rendered content is as below in every case. -/
def show_subscription_required (cfg : Config) : Payload :=
  let keyboard :=
    (match subscribe_url cfg with
     | some u => [[Button.urlButton "✅ Obuna bo'lish" u]]
     | none => []) ++ [[recheck_button]]
  let photo :=
    match cfg.warning_image_url with
    | some w => if w = warning_placeholder then none else some w
    | none => none
  Payload.mk (subscription_required_text cfg) keyboard photo (some ParseMode.markdown)

/-- Process-wide mutable state touched by the command handlers: the
`user_count` counter and the `user_search_states` dict. -/
structure BotState where
  user_count : Nat
  user_search_states : SearchStates
deriving DecidableEq, Repr

/-- The welcome text of `/start` (lines 83-88): the user's first name and the
incremented counter are interpolated, unescaped, into a Markdown-mode
message. -/
def welcome_text (user_name : String) (count : Nat) : String :=
  "👋 Salom, **" ++ user_name ++ "** botimizga xush kelibsiz! " ++
  "Siz botdagi **" ++ toString count ++ "**-foydalanuvchi bo'ldingiz. " ++
  "💬 Bu bot orqali foydalanuvchi, guruh va kanallarning ID'sini olish imkoniyatiga ega bo'lasiz. " ++
  "⭐ Botga start tugmasini bosib, ish faoliyatini boshlang."

/-- `TelegramBot.start` (lines 72-96): increment the counter, send the
welcome text (parse mode Markdown), then render the subscribed menu or the
unsubscribed prompt according to the oracle.  `first_name` is optional and
falsy values default to "Foydalanuvchi" (`first_name or "Foydalanuvchi"`). -/
def start (cfg : Config) (member_result : Except Unit ChatMemberStatus)
    (st : BotState) (first_name : Option String) : BotState × List Action :=
  let user_name :=
    match first_name with
    | some n => if n = "" then "Foydalanuvchi" else n
    | none => "Foydalanuvchi"
  let count := st.user_count + 1
  (BotState.mk count st.user_search_states,
   Action.reply (Payload.mk (welcome_text user_name count) [] none (some ParseMode.markdown)) ::
     (if is_subscribed cfg member_result then
        [Action.reply show_subscribed_message]
      else
        [Action.reply (show_subscription_required cfg)]))

/-- `TelegramBot.check_subscription` (lines 162-172): evaluate the oracle and
reply with the subscribed menu or the unsubscribed prompt.  It reads and
writes no mutable bot state. -/
def check_subscription (cfg : Config) (member_result : Except Unit ChatMemberStatus)
    (st : BotState) : BotState × List Action :=
  (st,
   [Action.reply
      (if is_subscribed cfg member_result then show_subscribed_message
       else show_subscription_required cfg)])

/-- Alert shown when a gated search button is pressed while not
subscribed (lines 219, 229, 239, 255). -/
def gate_alert_text : String :=
  "❌ Avval kanalga obuna bo'ling!"

/-- Alert shown by the recheck button while not subscribed (line 209). -/
def not_subscribed_alert_text : String :=
  "❌ Siz hali kanalga obuna bo'lmagansiz. Iltimos, avval kanalga obuna bo'ling."

/-- Generic failure acknowledgment of the `except` clause of
`button_handler` (line 261). -/
def generic_error_text : String :=
  "❌ Xatolik yuz berdi. Qaytadan urinib ko'ring."

/-- Prompt of the user-search flow (line 215). -/
def user_search_prompt_text : String :=
  "👤 **Foydalanuvchi qidirish**\n\nFoydalanuvchi username'ini kiriting (masalan: @username yoki username):"

/-- Prompt of the channel-search flow (line 225). -/
def channel_search_prompt_text : String :=
  "🔍 **Kanal qidirish**\n\nKanal username'ini kiriting (masalan: @channelname yoki channelname):"

/-- Prompt of the group-search flow (line 235). -/
def group_search_prompt_text : String :=
  "🔍 **Guruh qidirish**\n\nGuruh username'ini kiriting (masalan: @groupname yoki groupname):"

/-- Payload of a search prompt: text only, Markdown parse mode. -/
def search_prompt_payload (t : String) : Payload :=
  Payload.mk t [] none (some ParseMode.markdown)

/-- The `check_subscription` callback branch (lines 183-209), MEMBER case
(lines 184-207): try to edit the message to the main menu; if the edit
raises, delete the old message (its own failure is swallowed by
`except: pass`) and send the menu as a new message.  `edit_raises` /
`send_raises` say whether those collaborator calls raise.  The `Bool` in the
result records whether an exception escapes the branch. -/
def button_check_subscription_branch (msg : Option Int) (edit_raises send_raises : Bool) :
    List Action × Bool :=
  if edit_raises then
    match msg with
    | some _ =>
      if send_raises then ([Action.deleteMessage], true)
      else ([Action.deleteMessage, Action.sendMessage main_menu_payload], false)
    | none => ([], false)
  else ([Action.editMessage main_menu_payload], false)

/-- A search-category branch (lines 211-239), MEMBER case: store the
matching AWAITING state under `(chat_id, user_id)` — where `chat_id` is
`query.message.chat.id if query.message else None` — then edit the message
to the category prompt when `query.message` is present. -/
def button_search_branch (st : SearchStates) (msg : Option Int) (uid : Int)
    (target : SearchState) (prompt : String) (edit_raises : Bool) :
    SearchStates × List Action × Bool :=
  let st' := states_set st (msg, uid) target
  match msg with
  | some _ =>
    if edit_raises then (st', [], true)
    else (st', [Action.editMessage (search_prompt_payload prompt)], false)
  | none => (st', [], false)

/-- The `search_back` branch (lines 241-255), MEMBER case: pop the session
state and edit the message back to the main menu. -/
def button_back_branch (st : SearchStates) (msg : Option Int) (uid : Int)
    (edit_raises : Bool) : SearchStates × List Action × Bool :=
  let st' := states_pop st (msg, uid)
  match msg with
  | some _ =>
    if edit_raises then (st', [], true)
    else (st', [Action.editMessage main_menu_payload], false)
  | none => (st', [], false)

/-- The `try` body of `TelegramBot.button_handler` (lines 182-257): dispatch
on the callback token; every gated branch evaluates the oracle first and,
when NOT_MEMBER, answers a transient alert without touching the state store.
The `answer` calls themselves are modelled as non-raising; the raising
collaborator calls are the message edit (`edit_raises`) and the fallback
send (`send_raises`).  Result: new store, actions so far, and whether an
exception escaped the body. -/
def button_try_body (cfg : Config) (r : Except Unit ChatMemberStatus)
    (st : SearchStates) (data : String) (msg : Option Int) (uid : Int)
    (edit_raises send_raises : Bool) : SearchStates × List Action × Bool :=
  if data = "check_subscription" then
    if is_subscribed cfg r then
      let res := button_check_subscription_branch msg edit_raises send_raises
      (st, res.1, res.2)
    else (st, [Action.answerCallback (some not_subscribed_alert_text) true], false)
  else if data = "search_user" then
    if is_subscribed cfg r then
      button_search_branch st msg uid SearchState.waiting_user_search
        user_search_prompt_text edit_raises
    else (st, [Action.answerCallback (some gate_alert_text) true], false)
  else if data = "search_channel" then
    if is_subscribed cfg r then
      button_search_branch st msg uid SearchState.waiting_channel_search
        channel_search_prompt_text edit_raises
    else (st, [Action.answerCallback (some gate_alert_text) true], false)
  else if data = "search_group" then
    if is_subscribed cfg r then
      button_search_branch st msg uid SearchState.waiting_group_search
        group_search_prompt_text edit_raises
    else (st, [Action.answerCallback (some gate_alert_text) true], false)
  else if data = "search_back" then
    if is_subscribed cfg r then
      button_back_branch st msg uid edit_raises
    else (st, [Action.answerCallback (some gate_alert_text) true], false)
  else (st, [], false)

/-- `TelegramBot.button_handler` (lines 174-261): run the `try` body; when no
exception escaped it, the trailing `await query.answer()` (line 257) issues a
plain acknowledgment; when one escaped, the `except` clause (lines 259-261)
issues the generic-failure acknowledgment instead.  Either way the handler
returns normally. -/
def button_handler (cfg : Config) (r : Except Unit ChatMemberStatus)
    (st : SearchStates) (data : String) (msg : Option Int) (uid : Int)
    (edit_raises send_raises : Bool) : SearchStates × List Action :=
  match button_try_body cfg r st data msg uid edit_raises send_raises with
  | (st', acts, raised) =>
    if raised then (st', acts ++ [Action.answerCallback (some generic_error_text) false])
    else (st', acts ++ [Action.answerCallback none false])

/-- Public metadata of a chat as returned by the `get_chat` directory
collaborator.  The source field `type` is a Python keyword-free name; here it
is `chat_type`. -/
structure ChatInfo where
  id : Int
  title : Option String
  username : Option String
  chat_type : String
  description : Option String
deriving DecidableEq, Repr

/-- `escape_markdown(x, version=2) if x else "N/A"` (lines 347-348):
Python truthiness makes an empty string fall back to "N/A" too. -/
def escaped_or_na (s : Option String) : String :=
  match s with
  | some t => if t = "" then "N/A" else escape_markdown t
  | none => "N/A"

/-- Python truthiness of an optional string field. -/
def opt_truthy (s : Option String) : Bool :=
  match s with
  | some t => t != ""
  | none => false

/-- The single back button below every search result (lines 325, 367, 409). -/
def back_keyboard : List (List Button) :=
  [[Button.callbackButton "⬅️ Orqaga" "search_back"]]

/-- Success text of `search_channel` (lines 346-360): title, optional
handle, id, type and truncated description, all escaped for MarkdownV2. -/
def channel_found_text (ch : ChatInfo) : String :=
  "✅ **Kanal topildi\\!**\n\n" ++
  "📺 **Nomi:** " ++ escaped_or_na ch.title ++ "\n" ++
  (if opt_truthy ch.username then
      "🆔 **Username:** @" ++ escaped_or_na ch.username ++ "\n" else "") ++
  "🆔 **ID:** `" ++ escape_markdown (toString ch.id) ++ "`\n" ++
  "👥 **Turi:** " ++ escape_markdown ch.chat_type ++ "\n" ++
  (match ch.description with
   | some d => if d = "" then "" else "📝 **Tavsif:** " ++ escape_markdown (py_take 100 d) ++ "\\.\\.\\."
   | none => "")

/-- Failure text of `search_channel` (line 365), naming the searched handle
(escaped). -/
def channel_not_found_text (name : String) : String :=
  "❌ **Kanal topilmadi\\!**\n\n@" ++ escape_markdown name ++
  " kanal topilmadi yoki bot unga kirish huquqiga ega emas\\.\n\n💡 **Maslahatlar:**\n• Kanal username'i to'g'ri yozilganligini tekshiring\n• Kanal ochiq \\(public\\) bo'lishi kerak\n• Kanal mavjudligini tekshiring"

/-- Success text of `search_group` (lines 388-402). -/
def group_found_text (g : ChatInfo) : String :=
  "✅ **Guruh topildi\\!**\n\n" ++
  "👥 **Nomi:** " ++ escaped_or_na g.title ++ "\n" ++
  (if opt_truthy g.username then
      "🆔 **Username:** @" ++ escaped_or_na g.username ++ "\n" else "") ++
  "🆔 **ID:** `" ++ escape_markdown (toString g.id) ++ "`\n" ++
  "👥 **Turi:** " ++ escape_markdown g.chat_type ++ "\n" ++
  (match g.description with
   | some d => if d = "" then "" else "📝 **Tavsif:** " ++ escape_markdown (py_take 100 d) ++ "\\.\\.\\."
   | none => "")

/-- Failure text of `search_group` (line 407). -/
def group_not_found_text (name : String) : String :=
  "❌ **Guruh topilmadi\\!**\n\n@" ++ escape_markdown name ++
  " guruh topilmadi yoki bot unga kirish huquqiga ega emas\\.\n\n💡 **Maslahatlar:**\n• Guruh username'i to'g'ri yozilganligini tekshiring\n• Guruh ochiq \\(public\\) bo'lishi kerak\n• Guruh mavjudligini tekshiring"

/-- Fixed limitation notice of `search_user` (lines 312-317), naming the
searched handle (escaped). -/
def user_search_limit_text (username : String) : String :=
  "⚠️ **Foydalanuvchi qidirish cheklovi**\n\n" ++
  "Afsuski, Telegram Bot API orqali @" ++ escape_markdown username ++
  " foydalanuvchisini username bo'yicha qidirish mumkin emas\\.\n\n" ++
  "**Foydalanuvchi ID\\-sini olish usullari:**\n" ++
  "• Foydalanuvchi botga yozishi va /start bosishi kerak\n" ++
  "• Yoki foydalanuvchini guruhlarda mention qilib, bot orqali ID\\-sini olish mumkin\n\n" ++
  "**Maslahat:** Kanal yoki guruh qidirish funksiyasidan foydalaning\\!"

/-- `TelegramBot.search_user` (lines 292-328): strip a leading `@`, clear the
session state, and reply with the fixed limitation notice (MarkdownV2, back
button).  The `try` body performs no collaborator call, so its `except`
branch — which would clear the state as well — is unreachable; the state is
cleared on every path. -/
def search_user (st : SearchStates) (chat_id uid : Int) (username : String) :
    SearchStates × List Action :=
  let name := if py_startswith username "@" then py_drop 1 username else username
  (states_pop st (some chat_id, uid),
   [Action.reply (Payload.mk (user_search_limit_text name) back_keyboard none
      (some ParseMode.markdownV2))])

/-- `TelegramBot.search_channel` (lines 330-370): strip a leading `@` and ask
the directory collaborator (`get_chat`).  On success the session state is
cleared and the success payload rendered; when the lookup raises, the
failure payload is rendered and the session state is left untouched
("Clear search state only on success", line 343). -/
def search_channel (dir_result : Except Unit ChatInfo) (st : SearchStates)
    (chat_id uid : Int) (channel_name : String) : SearchStates × List Action :=
  let name := if py_startswith channel_name "@" then py_drop 1 channel_name else channel_name
  match dir_result with
  | .ok ch =>
    (states_pop st (some chat_id, uid),
     [Action.reply (Payload.mk (channel_found_text ch) back_keyboard none
        (some ParseMode.markdownV2))])
  | .error _ =>
    (st,
     [Action.reply (Payload.mk (channel_not_found_text name) back_keyboard none
        (some ParseMode.markdownV2))])

/-- `TelegramBot.search_group` (lines 372-412): same shape as
`search_channel`, group wording. -/
def search_group (dir_result : Except Unit ChatInfo) (st : SearchStates)
    (chat_id uid : Int) (group_name : String) : SearchStates × List Action :=
  let name := if py_startswith group_name "@" then py_drop 1 group_name else group_name
  match dir_result with
  | .ok g =>
    (states_pop st (some chat_id, uid),
     [Action.reply (Payload.mk (group_found_text g) back_keyboard none
        (some ParseMode.markdownV2))])
  | .error _ =>
    (st,
     [Action.reply (Payload.mk (group_not_found_text name) back_keyboard none
        (some ParseMode.markdownV2))])

/-- `TelegramBot.handle_text_message` (lines 264-290): guard on a truthy
chat id (`if not chat_id: return` — also falsy at 0), re-verify the oracle
(silently dropping the message when NOT_MEMBER), and dispatch on the stored
session state; with no stored state the message is ignored. -/
def handle_text_message (cfg : Config) (r : Except Unit ChatMemberStatus)
    (dir_result : Except Unit ChatInfo) (st : SearchStates)
    (chat_id : Option Int) (uid : Int) (text : String) : SearchStates × List Action :=
  match chat_id with
  | none => (st, [])
  | some cid =>
    if cid = 0 then (st, [])
    else if is_subscribed cfg r then
      match states_get st (some cid, uid) with
      | some SearchState.waiting_user_search => search_user st cid uid text
      | some SearchState.waiting_channel_search => search_channel dir_result st cid uid text
      | some SearchState.waiting_group_search => search_group dir_result st cid uid text
      | none => (st, [])
    else (st, [])

/-- A handler's action list ends with a callback acknowledgment. -/
def last_action_answers (as : List Action) : Bool :=
  match as.getLast? with
  | some (Action.answerCallback _ _) => true
  | _ => false

/-- C4: for every user, if no target channel is configured the oracle check
returns MEMBER (`true`); with a channel configured it returns MEMBER exactly
for the reported roles member / administrator / owner, NOT_MEMBER for every
other reported role, and NOT_MEMBER whenever the collaborator call raises. -/
theorem C4_oracle_check (cfg : Config) (r : Except Unit ChatMemberStatus) :
    (cfg.channel_id = none → is_subscribed cfg r = true) ∧
    (∀ c, cfg.channel_id = some c → ∀ s, r = Except.ok s →
      (is_subscribed cfg r = true ↔
        (s = ChatMemberStatus.member ∨ s = ChatMemberStatus.administrator ∨
          s = ChatMemberStatus.owner))) ∧
    (∀ c, cfg.channel_id = some c → ∀ e, r = Except.error e →
      is_subscribed cfg r = false) := by
  obtain ⟨ci, cu, wi⟩ := cfg
  refine ⟨?_, ?_, ?_⟩
  · intro h
    simp only at h
    subst h
    rfl
  · rintro c h s hs
    simp only at h
    subst h
    subst hs
    cases s <;> simp [is_subscribed]
  · rintro c h e he
    simp only at h
    subst h
    subst he
    rfl

/-- C4 witness: with a configured channel, a raised lookup is NOT_MEMBER. -/
theorem C4_oracle_check_witness :
    is_subscribed (Config.mk (some "@kanal") none none) (Except.error ()) = false :=
  (C4_oracle_check (Config.mk (some "@kanal") none none) (Except.error ())).2.2
    "@kanal" rfl () rfl

/-- C9: invoking `check_subscription` twice in a row, with no change to
configuration, stored state, or the oracle's answer in between, renders the
same payload both times (the handler also leaves the bot state untouched). -/
theorem C9_check_subscription_idempotent (cfg : Config)
    (r : Except Unit ChatMemberStatus) (st : BotState) :
    (check_subscription cfg r st).1 = st ∧
    (check_subscription cfg r (check_subscription cfg r st).1).2
      = (check_subscription cfg r st).2 :=
  ⟨rfl, rfl⟩

/-- C5: the unsubscribed prompt's subscribe button is built in priority
order — (a) the configured public URL itself when `CHANNEL_URL` is an http(s)
URL, (b) `https://t.me/<handle>` derived from the channel reference when no
URL is configured and `CHANNEL_ID` is a public `@`-handle, (c) no subscribe
button and the raw channel identifier embedded in the message text when no
URL is configured and `CHANNEL_ID` is a private (non-`@`) id — and in every
configuration the prompt carries the recheck button with the fixed callback
token `check_subscription`. -/
theorem C5_subscribe_button_priority (cfg : Config) :
    (∀ u, cfg.channel_url = some u →
      (py_startswith u "https://" = true ∨ py_startswith u "http://" = true) →
      (show_subscription_required cfg).keyboard
        = [[Button.urlButton "✅ Obuna bo'lish" u], [recheck_button]]) ∧
    (∀ c, cfg.channel_url = none → cfg.channel_id = some c →
      py_startswith c "@" = true →
      (show_subscription_required cfg).keyboard
        = [[Button.urlButton "✅ Obuna bo'lish" ("https://t.me/" ++ py_drop 1 c)],
           [recheck_button]]) ∧
    (∀ c, cfg.channel_url = none → cfg.channel_id = some c →
      py_startswith c "@" = false →
      (show_subscription_required cfg).keyboard = [[recheck_button]] ∧
      (show_subscription_required cfg).text
        = subscription_required_base_text ++ kanal_id_note c) ∧
    [recheck_button] ∈ (show_subscription_required cfg).keyboard := by
  obtain ⟨ci, cu, wi⟩ := cfg
  refine ⟨?_, ?_, ?_, ?_⟩
  · rintro u hu hstart
    simp only at hu
    subst hu
    rcases hstart with h | h <;>
      simp [show_subscription_required, subscribe_url, h]
  · rintro c hu hc h
    simp only at hu hc
    subst hu
    subst hc
    simp [show_subscription_required, subscribe_url, h]
  · rintro c hu hc h
    simp only at hu hc
    subst hu
    subst hc
    constructor <;>
      simp [show_subscription_required, subscribe_url, subscription_required_text, h]
  · simp only [show_subscription_required]
    cases subscribe_url (Config.mk ci cu wi) <;> simp

/-- C5 witness: explicit http(s) `CHANNEL_URL` wins over the `@`-handle
channel reference, and the recheck button is present. -/
theorem C5_subscribe_button_priority_witness :
    (show_subscription_required
        (Config.mk (some "@kanal") (some "https://t.me/kanal") none)).keyboard
      = [[Button.urlButton "✅ Obuna bo'lish" "https://t.me/kanal"], [recheck_button]] :=
  (C5_subscribe_button_priority
      (Config.mk (some "@kanal") (some "https://t.me/kanal") none)).1
    "https://t.me/kanal" rfl (Or.inl (by decide))

/-- C10: when `CHANNEL_URL` is configured but starts with none of
`https://`, `http://` or `@`, the unsubscribed prompt has no subscribe
button and its text is the bare warning — the channel identifier is not
embedded — even though a channel reference may be configured. -/
theorem C10_malformed_url_skips_fallbacks (cfg : Config) (u : String) :
    cfg.channel_url = some u →
    py_startswith u "https://" = false → py_startswith u "http://" = false →
    py_startswith u "@" = false →
    (show_subscription_required cfg).keyboard = [[recheck_button]] ∧
    (show_subscription_required cfg).text = subscription_required_base_text := by
  obtain ⟨ci, cu, wi⟩ := cfg
  intro hu h1 h2 h3
  simp only at hu
  subst hu
  constructor
  · simp [show_subscription_required, subscribe_url, h1, h2, h3]
  · cases ci <;>
      simp [show_subscription_required, subscription_required_text]

/-- C10 witness: `CHANNEL_URL = "kanal"` with a numeric `CHANNEL_ID`:
no subscribe button and no embedded id. -/
theorem C10_malformed_url_skips_fallbacks_witness :
    (show_subscription_required
        (Config.mk (some "-1001234") (some "kanal") none)).keyboard
      = [[recheck_button]] ∧
    (show_subscription_required
        (Config.mk (some "-1001234") (some "kanal") none)).text
      = subscription_required_base_text :=
  C10_malformed_url_skips_fallbacks
    (Config.mk (some "-1001234") (some "kanal") none) "kanal" rfl
    (by decide) (by decide) (by decide)

/-- C7: a free-text message from a (chat,user) pair with no stored session
state produces no outbound reply and leaves the state store unchanged. -/
theorem C7_no_session_no_reply (cfg : Config) (r : Except Unit ChatMemberStatus)
    (dir_result : Except Unit ChatInfo) (st : SearchStates) (chat_id : Option Int)
    (uid : Int) (text : String) :
    (∀ cid, chat_id = some cid → states_get st (some cid, uid) = none) →
    handle_text_message cfg r dir_result st chat_id uid text = (st, []) := by
  intro h
  cases chat_id with
  | none => rfl
  | some cid =>
    by_cases h0 : cid = 0
    · simp [handle_text_message, h0]
    · have hg := h cid rfl
      by_cases hs : is_subscribed cfg r = true
      · simp [handle_text_message, h0, hs, hg]
      · simp [handle_text_message, h0, hs]

/-- C7 witness: empty store, concrete message: no reply, store unchanged. -/
theorem C7_no_session_no_reply_witness :
    handle_text_message (Config.mk none none none) (Except.ok ChatMemberStatus.member)
      (Except.error ()) [] (some 5) 7 "salom" = ([], []) :=
  C7_no_session_no_reply (Config.mk none none none) (Except.ok ChatMemberStatus.member)
    (Except.error ()) [] (some 5) 7 "salom" (fun _ _ => rfl)

/-- C1 counterexample: a `search_back` press does consult the oracle first.
With a configured channel and a raised membership lookup (NOT_MEMBER), the
pending session state of (chat 5, user 7) is NOT cleared — the result store
differs from the cleared one — and instead of re-rendering the main menu the
handler only answers a transient gate alert. -/
theorem C1_counterexample :
    (button_handler (Config.mk (some "@kanal") none none) (Except.error ())
        [((some 5, 7), SearchState.waiting_channel_search)] "search_back"
        (some 5) 7 false false).1
      ≠ states_pop [((some 5, 7), SearchState.waiting_channel_search)] (some 5, 7) ∧
    (button_handler (Config.mk (some "@kanal") none none) (Except.error ())
        [((some 5, 7), SearchState.waiting_channel_search)] "search_back"
        (some 5) 7 false false).2
      = [Action.answerCallback (some gate_alert_text) true,
         Action.answerCallback none false] := by
  constructor <;> decide

/-- C1 (amended): handling `search_back` first consults the oracle.  When it
reports MEMBER the session state of the (chat,user) pair is cleared and the
main menu re-rendered (edited in place when the pressed message is present);
when it reports NOT_MEMBER the handler answers a transient alert and leaves
the state store unchanged. -/
theorem C1_back_gated (cfg : Config) (r : Except Unit ChatMemberStatus)
    (st : SearchStates) (msg : Option Int) (uid : Int) :
    (is_subscribed cfg r = true →
      button_handler cfg r st "search_back" msg uid false false
        = (states_pop st (msg, uid),
           (match msg with
            | some _ => [Action.editMessage main_menu_payload]
            | none => []) ++ [Action.answerCallback none false])) ∧
    (is_subscribed cfg r = false →
      button_handler cfg r st "search_back" msg uid false false
        = (st, [Action.answerCallback (some gate_alert_text) true,
                Action.answerCallback none false])) := by
  constructor <;> intro hsub <;> cases msg <;>
    simp [button_handler, button_try_body, button_back_branch, hsub]

/-- C1 witness: subscribed user, pending state cleared, menu re-rendered. -/
theorem C1_back_gated_witness :
    button_handler (Config.mk none none none) (Except.ok ChatMemberStatus.member)
        [((some 1, 2), SearchState.waiting_user_search)] "search_back" (some 1) 2
        false false
      = ([], [Action.editMessage main_menu_payload,
              Action.answerCallback none false]) := by
  have h := (C1_back_gated (Config.mk none none none)
      (Except.ok ChatMemberStatus.member)
      [((some 1, 2), SearchState.waiting_user_search)] (some 1) 2).1 rfl
  simpa using h

set_option maxRecDepth 4096 in
/-- C2 counterexample: a pending channel search whose directory lookup
terminally fails sends the failure payload but does NOT clear the session
state — (chat 5, user 7) is still AWAITING_CHANNEL_SEARCH afterwards. -/
theorem C2_counterexample :
    (handle_text_message (Config.mk (some "@kanal") none none)
        (Except.ok ChatMemberStatus.member) (Except.error ())
        [((some 5, 7), SearchState.waiting_channel_search)] (some 5) 7 "@news").1
      = [((some 5, 7), SearchState.waiting_channel_search)] ∧
    (handle_text_message (Config.mk (some "@kanal") none none)
        (Except.ok ChatMemberStatus.member) (Except.error ())
        [((some 5, 7), SearchState.waiting_channel_search)] (some 5) 7 "@news").2
      = [Action.reply (Payload.mk (channel_not_found_text "news") back_keyboard none
          (some ParseMode.markdownV2))] := by
  constructor <;> decide

/-- C2 (amended): for a subscribed (chat,user) pair with a pending session
state, processing the next free-text search message clears the state on
every successful search and on every user-category attempt (that handler is
terminal by construction), but a terminally failed channel or group lookup
leaves the pending state unchanged. -/
theorem C2_clear_policy (cfg : Config) (r : Except Unit ChatMemberStatus)
    (dir_result : Except Unit ChatInfo) (st : SearchStates) (cid uid : Int)
    (text : String) (h0 : cid ≠ 0) (hsub : is_subscribed cfg r = true) :
    (states_get st (some cid, uid) = some SearchState.waiting_user_search →
      (handle_text_message cfg r dir_result st (some cid) uid text).1
        = states_pop st (some cid, uid)) ∧
    (∀ info, dir_result = Except.ok info →
      states_get st (some cid, uid) ≠ none →
      (handle_text_message cfg r dir_result st (some cid) uid text).1
        = states_pop st (some cid, uid)) ∧
    (∀ e, dir_result = Except.error e →
      states_get st (some cid, uid) = some SearchState.waiting_channel_search →
      (handle_text_message cfg r dir_result st (some cid) uid text).1 = st) ∧
    (∀ e, dir_result = Except.error e →
      states_get st (some cid, uid) = some SearchState.waiting_group_search →
      (handle_text_message cfg r dir_result st (some cid) uid text).1 = st) := by
  refine ⟨?_, ?_, ?_, ?_⟩
  · intro hget
    simp [handle_text_message, h0, hsub, hget, search_user]
  · rintro info rfl hne
    rcases hget : states_get st (some cid, uid) with _ | s
    · exact absurd hget hne
    · cases s <;>
        simp [handle_text_message, h0, hsub, hget, search_user, search_channel,
          search_group]
  · rintro e rfl hget
    simp [handle_text_message, h0, hsub, hget, search_channel]
  · rintro e rfl hget
    simp [handle_text_message, h0, hsub, hget, search_group]

/-- C2 witness: failed channel lookup leaves the pending state in place. -/
theorem C2_clear_policy_witness :
    (handle_text_message (Config.mk (some "@kanal") none none)
        (Except.ok ChatMemberStatus.member) (Except.error ())
        [((some 5, 7), SearchState.waiting_channel_search)] (some 5) 7 "@news").1
      = [((some 5, 7), SearchState.waiting_channel_search)] :=
  (C2_clear_policy (Config.mk (some "@kanal") none none)
      (Except.ok ChatMemberStatus.member) (Except.error ())
      [((some 5, 7), SearchState.waiting_channel_search)] 5 7 "@news"
      (by decide) (by decide)).2.2.1 () rfl rfl

set_option maxRecDepth 8192 in
/-- C3: the `/start` welcome reply is rendered with Markdown parse mode and
interpolates the user's first name raw: for the name `_Ali_` the reply text
contains `_Ali_` unescaped, while the platform's escaping of that name would
be `\_Ali\_`, which does not occur in the text.  The search-result renderers
escape their interpolations; this welcome message is the slip. -/
theorem C3_unescaped_first_name :
    (start (Config.mk (some "@kanal") none none) (Except.error ())
        (BotState.mk 0 []) (some "_Ali_")).2.head?
      = some (Action.reply (Payload.mk (welcome_text "_Ali_" 1) [] none
          (some ParseMode.markdown))) ∧
    "_Ali_".data <:+: (welcome_text "_Ali_" 1).data ∧
    escape_markdown "_Ali_" = "\\_Ali\\_" ∧
    ¬ ("\\_Ali\\_".data <:+: (welcome_text "_Ali_" 1).data) := by
  refine ⟨rfl, by decide, by decide, by decide⟩

/-- C6: a gated search button press (`search_user` / `search_channel` /
`search_group`) while the oracle reports NOT_MEMBER answers only a transient
alert with the fixed gate text plus the trailing plain acknowledgment; the
state store is returned unchanged, no reply or edit is sent, and the alert
text contains no digit (so no identifier or entity data can appear). -/
theorem C6_gated_press_not_member (cfg : Config) (r : Except Unit ChatMemberStatus)
    (st : SearchStates) (data : String) (msg : Option Int) (uid : Int)
    (edit_raises send_raises : Bool) :
    data ∈ ["search_user", "search_channel", "search_group"] →
    is_subscribed cfg r = false →
    button_handler cfg r st data msg uid edit_raises send_raises
      = (st, [Action.answerCallback (some gate_alert_text) true,
              Action.answerCallback none false]) ∧
    (gate_alert_text.data.all fun ch => !ch.isDigit) = true := by
  intro hdata hsub
  refine ⟨?_, by decide⟩
  simp only [List.mem_cons, List.not_mem_nil, or_false] at hdata
  rcases hdata with rfl | rfl | rfl <;>
    simp [button_handler, button_try_body, hsub]

/-- C6 witness: `search_channel` press with a raised membership lookup. -/
theorem C6_gated_press_not_member_witness :
    button_handler (Config.mk (some "@kanal") none none) (Except.error ())
        [] "search_channel" (some 3) 4 false false
      = ([], [Action.answerCallback (some gate_alert_text) true,
              Action.answerCallback none false]) :=
  (C6_gated_press_not_member (Config.mk (some "@kanal") none none)
      (Except.error ()) [] "search_channel" (some 3) 4 false false
      (by decide) (by decide)).1

/-- C8: every button-press callback is answered: the handler's action list
always ends in a callback acknowledgment, and whenever an exception escapes
the per-branch handling (the raised flag of the `try` body), that final
acknowledgment is the generic failure notice — the embedded handler returns
normally in every case, so no exception propagates. -/
theorem C8_callback_always_answered (cfg : Config) (r : Except Unit ChatMemberStatus)
    (st : SearchStates) (data : String) (msg : Option Int) (uid : Int)
    (edit_raises send_raises : Bool) :
    last_action_answers
        (button_handler cfg r st data msg uid edit_raises send_raises).2 = true ∧
    ((button_try_body cfg r st data msg uid edit_raises send_raises).2.2 = true →
      (button_handler cfg r st data msg uid edit_raises send_raises).2.getLast?
        = some (Action.answerCallback (some generic_error_text) false)) := by
  unfold button_handler
  rcases h : button_try_body cfg r st data msg uid edit_raises send_raises
    with ⟨st', acts, raised⟩
  cases raised <;>
    simp [last_action_answers, List.getLast?_concat, h]

/-- C8 witness: subscribed `search_user` press whose message edit raises:
the callback is still answered, with the generic failure notice. -/
theorem C8_callback_always_answered_witness :
    (button_handler (Config.mk none none none) (Except.ok ChatMemberStatus.member)
        [] "search_user" (some 3) 4 true false).2.getLast?
      = some (Action.answerCallback (some generic_error_text) false) :=
  (C8_callback_always_answered (Config.mk none none none)
      (Except.ok ChatMemberStatus.member) [] "search_user" (some 3) 4 true false).2
    (by decide)

end Main
